import Mathlib

/-!
Verification development for the polyglot execution engine in app.py.

The engine executes a user-submitted function in one of four languages
(python, javascript, java, cpp).  The compiled-language executors wrap the
submission in a harness that prints a sentinel line "RESULT:<text>", run the
program as a subprocess under a timeout inside a throwaway temporary
directory, and reconstruct a host value from the sentinel line by lexical
inference.  This file gives a shallow embedding of:

  - the canonical (Python-side) value space;
  - the argument marshallers python_to_java and python_to_cpp;
  - the Python int(...) and float(...) string-acceptance rules that drive
    the result classification in execute_java and execute_cpp;
  - the RESULT-line scanners and classifiers of the three subprocess
    executors, including the JSON round trip used by execute_javascript;
  - the control flow of execute_python, execute_javascript, execute_java
    and execute_cpp over abstract subprocess behaviours (exit code, output,
    and running time, with running time none meaning the child never
    terminates), tracking the temporary-directory state and which
    subprocesses get spawned;
  - the step tracer and the hook management of the debug endpoint.

Machine details out of scope: actual compiler/interpreter semantics of the
target languages (child processes are abstract behaviours), unicode digits
in Python numeric conversion (the model covers ASCII text, which is what
the harnesses print), and floating-point arithmetic (a parsed float is
represented by its decimal text; no claim compares float values
numerically).
-/

/-- Canonical host value: the Python-side value space used for arguments,
expected values and parsed results.  A float is represented by the text it
was parsed from (no claim in this development inspects a float
numerically). -/
inductive PyVal where
  | vInt : Int → PyVal
  | vFloat : String → PyVal
  | vBool : Bool → PyVal
  | vStr : String → PyVal
  | vList : List PyVal → PyVal
  | vNone : PyVal

/-- Characters stripped by Python str.strip() with no argument (ASCII
whitespace: space, tab, newline, carriage return, vertical tab, form
feed). -/
def isPyWs (c : Char) : Bool :=
  c == ' ' || c == '\t' || c == '\n' || c == '\r' ||
    c == Char.ofNat 11 || c == Char.ofNat 12

/-- Python str.strip(): remove leading and trailing whitespace. -/
def pyStripChars (cs : List Char) : List Char :=
  ((cs.dropWhile isPyWs).reverse.dropWhile isPyWs).reverse

/-- Consume the tail of a digit group: further digits, with single
underscores allowed between digits (the Python numeric-literal rule for
int(...) and float(...)).  Returns the unconsumed remainder. -/
def digitsTail : List Char → List Char
  | '_' :: c :: rest => if c.isDigit then digitsTail rest else '_' :: c :: rest
  | c :: rest => if c.isDigit then digitsTail rest else c :: rest
  | [] => []

/-- Consume one digit group (at least one digit, single underscores allowed
between digits); none when the input does not start with a digit. -/
def digitGroupRest : List Char → Option (List Char)
  | c :: rest => if c.isDigit then some (digitsTail rest) else none
  | [] => none

/-- True when the whole input is exactly one digit group. -/
def wholeDigitGroup (cs : List Char) : Bool :=
  match digitGroupRest cs with
  | some [] => true
  | _ => false

/-- Numeric value of the digits in a list, skipping underscores. -/
def digitsVal (cs : List Char) : Nat :=
  cs.foldl (fun n c => if c.isDigit then n * 10 + (c.toNat - 48) else n) 0

/-- Model of Python int(text) on ASCII text: optional surrounding
whitespace, optional sign, then exactly one digit group.  Returns the
parsed integer, or none when int(...) raises ValueError. -/
def pyIntOfChars (p : List Char) : Option Int :=
  match pyStripChars p with
  | '+' :: rest => if wholeDigitGroup rest then some (digitsVal rest : Int) else none
  | '-' :: rest => if wholeDigitGroup rest then some (-(digitsVal rest : Int)) else none
  | rest => if wholeDigitGroup rest then some (digitsVal rest : Int) else none

/-- Exponent part of a float text: empty, or e followed by an optionally
signed digit group (input is already lowercased). -/
def expShape : List Char → Bool
  | [] => true
  | 'e' :: rest =>
    match rest with
    | '+' :: r => wholeDigitGroup r
    | '-' :: r => wholeDigitGroup r
    | r => wholeDigitGroup r
  | _ => false

/-- Mantissa of a float text: digits with an optional fraction, or a
fraction alone, followed by an optional exponent (input lowercased,
sign already removed). -/
def mantissaShape (cs : List Char) : Bool :=
  match digitGroupRest cs with
  | some rest =>
    match rest with
    | '.' :: rest2 =>
      (match digitGroupRest rest2 with
       | some rest3 => expShape rest3
       | none => expShape rest2)
    | _ => expShape rest
  | none =>
    match cs with
    | '.' :: rest2 =>
      (match digitGroupRest rest2 with
       | some rest3 => expShape rest3
       | none => false)
    | _ => false

/-- Model of Python float(text) acceptance on ASCII text: optional
whitespace and sign, then inf, infinity, nan (case-insensitive) or a
mantissa with optional exponent.  True exactly when float(...) does not
raise ValueError. -/
def pyFloatValidChars (p : List Char) : Bool :=
  let cs := (pyStripChars p).map Char.toLower
  let body := match cs with
    | '+' :: r => r
    | '-' :: r => r
    | r => r
  body == "inf".data || body == "infinity".data || body == "nan".data ||
    mantissaShape body

/-- Join a list of strings with a separator (model of str.join). -/
def joinSep (sep : String) : List String → String
  | [] => ""
  | [s] => s
  | s :: rest => s ++ sep ++ joinSep sep rest

/-- The character escaping performed by python_to_java and python_to_cpp on
string arguments: val.replace(backslash, double backslash) followed by
replace(quote, backslash quote).  The two sequential single-character
replacements act independently on each character of the original string
(the first introduces no quote and the second touches only quotes), so the
composition is this per-character map. -/
def escapeChars : List Char → List Char
  | [] => []
  | c :: rest =>
    if c = '\\' then '\\' :: '\\' :: escapeChars rest
    else if c = '"' then '\\' :: '"' :: escapeChars rest
    else c :: escapeChars rest

mutual

/-- Python repr of a value, as used by str(val) on a list (the C++
marshaller has no list case and falls through to str).  String elements are
shown in single quotes; escaping inside repr is out of modelled scope. -/
def pyReprVal : PyVal → String
  | .vInt n => toString n
  | .vFloat t => t
  | .vBool b => if b then "True" else "False"
  | .vStr s => "\x27" ++ s ++ "\x27"
  | .vNone => "None"
  | .vList vs => "[" ++ joinSep ", " (pyReprList vs) ++ "]"

/-- Python repr of each element of a list. -/
def pyReprList : List PyVal → List String
  | [] => []
  | v :: rest => pyReprVal v :: pyReprList rest

end

mutual

/-- python_to_java from execute_java: render a host value as a Java
expression.  Booleans first (before the numeric case), strings with
backslashes and quotes escaped, numbers via str, lists as a heterogeneous
Object array, anything else via str. -/
def python_to_java : PyVal → String
  | .vBool b => if b then "true" else "false"
  | .vStr s => "\"" ++ String.mk (escapeChars s.data) ++ "\""
  | .vInt n => toString n
  | .vFloat t => t
  | .vList vs => "new Object[]\x7b" ++ joinSep ", " (pyToJavaList vs) ++ "\x7d"
  | .vNone => "None"

/-- Render each element of a list argument for Java. -/
def pyToJavaList : List PyVal → List String
  | [] => []
  | v :: rest => python_to_java v :: pyToJavaList rest

end

/-- python_to_cpp from execute_cpp: render a host value as a C++
expression.  Booleans first, strings with backslashes and quotes escaped,
numbers via str; there is no list case, so a list falls through to str(val)
namely the Python repr of the list. -/
def python_to_cpp : PyVal → String
  | .vBool b => if b then "true" else "false"
  | .vStr s => "\"" ++ String.mk (escapeChars s.data) ++ "\""
  | .vInt n => toString n
  | .vFloat t => t
  | .vList vs => pyReprVal (.vList vs)
  | .vNone => "None"

/-- Interpretation of a double-quoted string literal under the Java and
C++ lexical rules for the body characters the marshaller can emit: escaped
backslash, escaped quote, and the common letter escapes; a raw newline or
carriage return inside the literal is ill-formed, an unescaped quote ends
the literal and any trailing text makes the input more than one literal. -/
def litBody : List Char → Option (List Char)
  | [] => none
  | c :: rest =>
    if c = '"' then (if rest.isEmpty then some [] else none)
    else if c = '\\' then
      match rest with
      | [] => none
      | d :: rest2 =>
        if d = '\\' then (litBody rest2).map (fun l => '\\' :: l)
        else if d = '"' then (litBody rest2).map (fun l => '"' :: l)
        else if d = 'n' then (litBody rest2).map (fun l => '\n' :: l)
        else if d = 't' then (litBody rest2).map (fun l => '\t' :: l)
        else if d = 'r' then (litBody rest2).map (fun l => '\r' :: l)
        else none
    else if c = '\n' ∨ c = '\r' then none
    else (litBody rest).map (fun l => c :: l)

/-- Interpret a complete double-quoted string literal: the value denoted
when the text is exactly one well-formed literal, none otherwise. -/
def interpretStringLit (s : String) : Option String :=
  match s.data with
  | '"' :: rest => (litBody rest).map String.mk
  | _ => none

/-- Split text at newline characters, keeping empty pieces, as Python
str.split with a newline separator does. -/
def pySplitNl : List Char → List (List Char)
  | [] => [[]]
  | '\n' :: rest => [] :: pySplitNl rest
  | c :: rest =>
    match pySplitNl rest with
    | l :: ls => (c :: l) :: ls
    | [] => [[c]]

/-- The payload of a line carrying the sentinel: when the line starts with
the seven characters RESULT and a colon, the rest of the line. -/
def resultPayload : List Char → Option (List Char)
  | 'R' :: 'E' :: 'S' :: 'U' :: 'L' :: 'T' :: ':' :: rest => some rest
  | _ => none

/-- First sentinel payload among a list of lines. -/
def findResultIn : List (List Char) → Option (List Char)
  | [] => none
  | l :: ls =>
    match resultPayload l with
    | some p => some p
    | none => findResultIn ls

/-- Scan captured stdout line by line for the first line starting with the
sentinel and return the text after the sentinel (the common loop of the
three subprocess executors). -/
def findResult (output : String) : Option (List Char) :=
  findResultIn (pySplitNl output.data)

/-- The except ValueError branch of the Java result classification:
case-insensitive true and false become booleans, anything else is returned
as a string verbatim. -/
def javaFallback (p : List Char) : PyVal :=
  if p.map Char.toLower = "true".data then .vBool true
  else if p.map Char.toLower = "false".data then .vBool false
  else .vStr (String.mk p)

/-- The except ValueError branch of the C++ result classification: the
exact texts 1 and 0 become booleans, anything else is returned as a string
verbatim. -/
def cppFallback (p : List Char) : PyVal :=
  if p = "1".data then .vBool true
  else if p = "0".data then .vBool false
  else .vStr (String.mk p)

/-- Classification of a stripped sentinel payload in execute_java: if the
text contains a dot, try float(...), otherwise try int(...); on ValueError
fall back to boolean and string handling. -/
def classifyJava (p : List Char) : PyVal :=
  if p.contains '.' then
    match pyFloatValidChars p with
    | true => .vFloat (String.mk p)
    | false => javaFallback p
  else
    match pyIntOfChars p with
    | some n => .vInt n
    | none => javaFallback p

/-- Classification of a stripped sentinel payload in execute_cpp: same
numeric cascade as Java, with the 1 and 0 fallback instead of true and
false. -/
def classifyCpp (p : List Char) : PyVal :=
  if p.contains '.' then
    match pyFloatValidChars p with
    | true => .vFloat (String.mk p)
    | false => cppFallback p
  else
    match pyIntOfChars p with
    | some n => .vInt n
    | none => cppFallback p

/-- The stripped payload of the first sentinel line of Java or C++ stdout
(both executors strip the payload before classifying). -/
def strippedPayload (output : String) : Option (List Char) :=
  (findResult output).map pyStripChars

/-- Parsed value of execute_java for a given stdout text; none when no
line starts with the sentinel (the executor then raises). -/
def parseJavaOutput (output : String) : Option PyVal :=
  (strippedPayload output).map classifyJava

/-- Parsed value of execute_cpp for a given stdout text; none when no line
starts with the sentinel. -/
def parseCppOutput (output : String) : Option PyVal :=
  (strippedPayload output).map classifyCpp

/-- Whitespace skipped between JSON tokens. -/
def jsonSkipWs (cs : List Char) : List Char :=
  cs.dropWhile (fun c => c == ' ' || c == '\t' || c == '\n' || c == '\r')

/-- Characters that may occur in a JSON number token. -/
def isJsonNumChar (c : Char) : Bool :=
  c.isDigit || c == '-' || c == '+' || c == '.' || c == 'e' || c == 'E'

/-- Convert a maximal JSON number token to a host value: with a dot or an
exponent it is a float (kept as text), otherwise an integer. -/
def jsonNumVal (run : List Char) : Option PyVal :=
  if run.contains '.' || run.contains 'e' || run.contains 'E' then
    some (.vFloat (String.mk run))
  else
    (pyIntOfChars run).map .vInt

/-- Body of a JSON string after the opening quote: collect characters up
to the closing quote, decoding the escapes the harness can emit. -/
def jsonStrBody : List Char → Option (List Char × List Char)
  | [] => none
  | c :: rest =>
    if c = '"' then some ([], rest)
    else if c = '\\' then
      match rest with
      | [] => none
      | d :: rest2 =>
        let dec := if d = '"' then some '"'
          else if d = '\\' then some '\\'
          else if d = '/' then some '/'
          else if d = 'n' then some '\n'
          else if d = 't' then some '\t'
          else if d = 'r' then some '\r'
          else none
        match dec with
        | some ch => (jsonStrBody rest2).map (fun pr => (ch :: pr.1, pr.2))
        | none => none
    else (jsonStrBody rest).map (fun pr => (c :: pr.1, pr.2))

mutual

/-- Fuel-bounded recursive-descent JSON reader covering the output of the
harness: null, booleans, numbers, strings and arrays.  Models json.loads
on the texts the JavaScript harness prints. -/
def jsonValAux : Nat → List Char → Option (PyVal × List Char)
  | 0, _ => none
  | fuel + 1, cs =>
    match jsonSkipWs cs with
    | 'n' :: 'u' :: 'l' :: 'l' :: rest => some (.vNone, rest)
    | 't' :: 'r' :: 'u' :: 'e' :: rest => some (.vBool true, rest)
    | 'f' :: 'a' :: 'l' :: 's' :: 'e' :: rest => some (.vBool false, rest)
    | '"' :: rest =>
      (jsonStrBody rest).map (fun pr => (.vStr (String.mk pr.1), pr.2))
    | '[' :: rest =>
      (match jsonSkipWs rest with
       | ']' :: rest2 => some (.vList [], rest2)
       | rest2 => jsonArrAux fuel rest2 [])
    | rest =>
      let run := rest.takeWhile isJsonNumChar
      if run.isEmpty then none
      else (jsonNumVal run).map (fun v => (v, rest.drop run.length))

/-- Elements of a JSON array after the opening bracket (at least one). -/
def jsonArrAux : Nat → List Char → List PyVal → Option (PyVal × List Char)
  | 0, _, _ => none
  | fuel + 1, cs, acc =>
    match jsonValAux fuel cs with
    | none => none
    | some (v, rest) =>
      match jsonSkipWs rest with
      | ',' :: rest2 => jsonArrAux fuel rest2 (acc ++ [v])
      | ']' :: rest2 => some (.vList (acc ++ [v]), rest2)
      | _ => none

end

/-- json.loads on a complete text: one JSON value with nothing but
whitespace after it. -/
def jsonLoads (s : String) : Option PyVal :=
  match jsonValAux (s.data.length + 1) s.data with
  | some (v, rest) => if (jsonSkipWs rest).isEmpty then some v else none
  | none => none

/-- Parsed value of execute_javascript for a given stdout text: the text
after the first sentinel (not stripped) goes through json.loads; none when
the sentinel is missing or the payload is not valid JSON (the executor then
raises). -/
def parseJsOutput (output : String) : Option PyVal :=
  match findResult output with
  | some payload => jsonLoads (String.mk payload)
  | none => none

mutual

/-- JSON serialization of a host value as JSON.stringify renders the
return value of a JavaScript submission: numbers bare, arrays bracketed
with comma separators and no spaces, strings quoted. -/
def jsonStringify : PyVal → String
  | .vInt n => toString n
  | .vFloat t => t
  | .vBool b => if b then "true" else "false"
  | .vStr s => "\"" ++ String.mk (escapeChars s.data) ++ "\""
  | .vList vs => "[" ++ joinSep "," (jsonStringifyList vs) ++ "]"
  | .vNone => "null"

/-- Serialize each element of an array. -/
def jsonStringifyList : List PyVal → List String
  | [] => []
  | v :: rest => jsonStringify v :: jsonStringifyList rest

end

/-- Captured result of a finished subprocess: exit status and the two
output channels. -/
structure ProcResult where
  returncode : Int
  stdout : String
  stderr : String

/-- Abstract behaviour of one child process: the wall-clock time it needs
(none meaning it never terminates) and what it produces if allowed to
finish.  This is the interface the executors consume through
subprocess.run. -/
structure ProcBehavior where
  time : Option Nat
  result : ProcResult

/-- Exceptions that can escape an executor body: subprocess.TimeoutExpired,
a RuntimeError raised by the executor itself, a JSON decode error from
json.loads, or an OS error while writing the source file. -/
inductive ExecExn where
  | timeoutExpired
  | runtimeErr (msg : String)
  | jsonDecodeErr
  | osErr

/-- subprocess.run with capture_output and a timeout: if the child needs no
more than the timeout it finishes and its result is returned (a non-zero
exit status is not itself an exception); otherwise the child is killed and
TimeoutExpired is raised.  Control always comes back within the timeout. -/
def subprocess_run (timeout : Nat) (p : ProcBehavior) : Except ExecExn ProcResult :=
  match p.time with
  | some t => if t ≤ timeout then .ok p.result else .error .timeoutExpired
  | none => .error .timeoutExpired

/-- The two subprocess phases of a compiled-language executor. -/
inductive Phase where
  | compilePhase
  | runPhase

/-- Observable side state of one executor call: whether the temporary
directory created by mkdtemp still exists, and which subprocesses were
spawned, in order. -/
structure FsState where
  tempDirExists : Bool
  spawned : List Phase

/-- Environment of one execute_javascript call: whether writing the
harness file succeeds, and the behaviour of the node child process. -/
structure JsEnv where
  writeOk : Bool
  run : ProcBehavior

/-- Environment of one execute_java or execute_cpp call: whether writing
the source file succeeds, and the behaviours of the compile and run child
processes. -/
structure CompiledEnv where
  writeOk : Bool
  compile : ProcBehavior
  run : ProcBehavior

/-- The try body of execute_javascript: write the harness file, run node
under a five-second timeout, raise on a non-zero exit status, then scan
stdout for the sentinel and decode the payload with json.loads.  The state
records the spawned subprocess. -/
def executeJsBody (env : JsEnv) (st : FsState) :
    Except ExecExn (PyVal × String × String) × FsState :=
  if env.writeOk = false then (.error .osErr, st) else
  let st := FsState.mk st.tempDirExists (st.spawned ++ [.runPhase])
  match subprocess_run 5 env.run with
  | .error e => (.error e, st)
  | .ok proc =>
    if proc.returncode ≠ 0 then
      (.error (.runtimeErr ("JavaScript error: " ++ proc.stderr)), st)
    else
      match findResult proc.stdout with
      | some payload =>
        (match jsonLoads (String.mk payload) with
         | some v => (.ok (v, proc.stdout, proc.stderr), st)
         | none => (.error .jsonDecodeErr, st))
      | none =>
        (.error (.runtimeErr ("Could not find RESULT in output: " ++ proc.stdout)), st)

/-- execute_javascript: mkdtemp, the try body, and a finally clause that
removes the temporary directory whatever the body did. -/
def execute_javascript (env : JsEnv) :
    Except ExecExn (PyVal × String × String) × FsState :=
  let st0 : FsState := FsState.mk true []
  let out := executeJsBody env st0
  (out.1, FsState.mk false out.2.spawned)

/-- The try body of execute_java: write the harness source, compile with
javac under a ten-second timeout, raise RuntimeError on a non-zero compile
status (so the run subprocess is never spawned), otherwise run the program
under a five-second timeout, raise on a non-zero run status, and classify
the sentinel payload. -/
def executeJavaBody (env : CompiledEnv) (st : FsState) :
    Except ExecExn (PyVal × String × String) × FsState :=
  if env.writeOk = false then (.error .osErr, st) else
  let st := FsState.mk st.tempDirExists (st.spawned ++ [.compilePhase])
  match subprocess_run 10 env.compile with
  | .error e => (.error e, st)
  | .ok cproc =>
    if cproc.returncode ≠ 0 then
      (.error (.runtimeErr ("Java compilation error: " ++ cproc.stderr)), st)
    else
      let st := FsState.mk st.tempDirExists (st.spawned ++ [.runPhase])
      match subprocess_run 5 env.run with
      | .error e => (.error e, st)
      | .ok rproc =>
        if rproc.returncode ≠ 0 then
          (.error (.runtimeErr ("Java runtime error: " ++ rproc.stderr)), st)
        else
          match parseJavaOutput rproc.stdout with
          | some v => (.ok (v, rproc.stdout, rproc.stderr), st)
          | none =>
            (.error (.runtimeErr ("Could not find RESULT in output: " ++ rproc.stdout)), st)

/-- execute_java: mkdtemp, the try body, and a finally clause that removes
the temporary directory whatever the body did. -/
def execute_java (env : CompiledEnv) :
    Except ExecExn (PyVal × String × String) × FsState :=
  let st0 : FsState := FsState.mk true []
  let out := executeJavaBody env st0
  (out.1, FsState.mk false out.2.spawned)

/-- The try body of execute_cpp: write the source, compile with g++ under a
ten-second timeout, raise RuntimeError on a non-zero compile status (the
run subprocess is never spawned), otherwise run the executable under a
five-second timeout, raise on a non-zero run status, and classify the
sentinel payload. -/
def executeCppBody (env : CompiledEnv) (st : FsState) :
    Except ExecExn (PyVal × String × String) × FsState :=
  if env.writeOk = false then (.error .osErr, st) else
  let st := FsState.mk st.tempDirExists (st.spawned ++ [.compilePhase])
  match subprocess_run 10 env.compile with
  | .error e => (.error e, st)
  | .ok cproc =>
    if cproc.returncode ≠ 0 then
      (.error (.runtimeErr ("C++ compilation error: " ++ cproc.stderr)), st)
    else
      let st := FsState.mk st.tempDirExists (st.spawned ++ [.runPhase])
      match subprocess_run 5 env.run with
      | .error e => (.error e, st)
      | .ok rproc =>
        if rproc.returncode ≠ 0 then
          (.error (.runtimeErr ("C++ runtime error: " ++ rproc.stderr)), st)
        else
          match parseCppOutput rproc.stdout with
          | some v => (.ok (v, rproc.stdout, rproc.stderr), st)
          | none =>
            (.error (.runtimeErr ("Could not find RESULT in output: " ++ rproc.stdout)), st)

/-- execute_cpp: mkdtemp, the try body, and a finally clause that removes
the temporary directory whatever the body did. -/
def execute_cpp (env : CompiledEnv) :
    Except ExecExn (PyVal × String × String) × FsState :=
  let st0 : FsState := FsState.mk true []
  let out := executeCppBody env st0
  (out.1, FsState.mk false out.2.spawned)

/-- A Python exception as observed by the executor: its class name, its
message, and whether it derives only from BaseException and not from
Exception (SystemExit, KeyboardInterrupt), in which case a bare
except-Exception clause does not catch it. -/
structure PyExc where
  name : String
  msg : String
  baseOnly : Bool

/-- Abstract behaviour of one execute_python call on a given submission:
what exec of the module body does, whether the entry point ends up defined
in the namespace, and how the call of the entry point behaves (its running
time, with none meaning it never returns, an exception it raises, its
return value, and the output captured during each phase). -/
structure PyRunBehavior where
  execExc : Option PyExc
  execStdout : String
  execStderr : String
  funcDefined : Bool
  callTime : Option Nat
  callExc : Option PyExc
  callRet : PyVal
  callStdout : String
  callStderr : String

/-- What a call of execute_python does from the point of view of its
caller: return the (value, stdout, stderr) tuple, let an exception
propagate, or never return at all. -/
inductive PyOutcome where
  | tuple (value : PyVal) (stdout stderr : String)
  | raises (e : PyExc)
  | hangs

/-- execute_python: exec the submission and call the entry point in
process, with no timeout of any kind; an except-Exception clause turns a
failure into a (None, stdout so far, formatted error) tuple, but an
exception outside the Exception hierarchy propagates, and a call that
never returns keeps execute_python from returning. -/
def execute_python (funcName : String) (b : PyRunBehavior) : PyOutcome :=
  match b.execExc with
  | some e =>
    if e.baseOnly then .raises e
    else .tuple .vNone b.execStdout (e.name ++ ": " ++ e.msg)
  | none =>
    if b.funcDefined = false then
      .tuple .vNone b.execStdout ("NameError: Function " ++ funcName ++ " not found")
    else
      match b.callTime with
      | none => .hangs
      | some _ =>
        match b.callExc with
        | some e =>
          if e.baseOnly then .raises e
          else .tuple .vNone (b.execStdout ++ b.callStdout) (e.name ++ ": " ++ e.msg)
        | none =>
          .tuple b.callRet (b.execStdout ++ b.callStdout) (b.execStderr ++ b.callStderr)

/-- Reference two_sum (the algorithm documented for the two_sum problem):
scan with a seen map from value to index, return the first hit as a pair
of indices, and the pair of minus ones when no two entries sum to the
target. -/
def twoSumGo (target : Int) (seen : List (Int × Nat)) (i : Nat) :
    List Int → List Int
  | [] => [-1, -1]
  | x :: rest =>
    match seen.lookup (target - x) with
    | some j => [(j : Int), (i : Int)]
    | none => twoSumGo target ((x, i) :: seen) (i + 1) rest

/-- two_sum(nums, target): indices of the first pair summing to the
target, or the pair of minus ones. -/
def two_sum (nums : List Int) (target : Int) : List Int :=
  twoSumGo target [] 0 nums

/-- Host value a correct Python two_sum submission returns: the index list
as a Python list of ints. -/
def twoSumVal (nums : List Int) (target : Int) : PyVal :=
  .vList ((two_sum nums target).map .vInt)

/-- Behaviour of running a correct, quiet Python two_sum submission: exec
defines the function, the call returns promptly with the two_sum value and
prints nothing. -/
def twoSumRunBehavior (nums : List Int) (target : Int) : PyRunBehavior :=
  PyRunBehavior.mk none "" "" true (some 0) none (twoSumVal nums target) "" ""

/-- One event delivered to the trace function installed with sys.settrace:
its kind (call, line, return, or any other kind, given as text), the
filename of the executing frame, the current line number, a snapshot of the
local variables as textual previews, and the event argument (the return
value preview on return events). -/
structure TraceEvent where
  kind : String
  filename : String
  line : Nat
  localsSnap : List (String × String)
  arg : Option String

/-- One recorded trace step as the debug endpoint stores it: event kind,
line number, the source text of that line, the locals snapshot, and the
return value preview on return events. -/
structure TraceStep where
  event : String
  line : Nat
  code : String
  localsSnap : List (String × String)
  ret : Option String

/-- Build the step record for an event: the source line is looked up in the
submitted code when the line number is in range, and the return preview is
attached only on return events. -/
def recordOf (codeLines : List String) (ev : TraceEvent) : TraceStep :=
  TraceStep.mk ev.kind ev.line
    (if 1 ≤ ev.line ∧ ev.line ≤ codeLines.length then codeLines.getD (ev.line - 1) "" else "")
    ev.localsSnap
    (if ev.kind == "return" then ev.arg else none)

/-- Whether the tracer looks at an event at all: only call, line and
return events of frames executing the submitted code (filename equal to
the string pseudo-filename of exec). -/
def isTraced (ev : TraceEvent) : Bool :=
  ev.filename == "<string>" &&
    (ev.kind == "call" || ev.kind == "line" || ev.kind == "return")

/-- Whether an event gets recorded: it must be traced, and either no
breakpoint set is configured or its line is in the set. -/
def isRecorded (bps : List Nat) (ev : TraceEvent) : Bool :=
  isTraced ev && (bps.isEmpty || bps.contains ev.line)

/-- State of the tracer closure across events: the list recorded so far,
the truncated flag, and whether the hook is still installed (sys.settrace
with None uninstalls it when the cap is reached). -/
structure TracerState where
  trace : List TraceStep
  truncated : Bool
  active : Bool

/-- The tracer function of the debug endpoint, acting on one event: an
uninstalled hook sees nothing; a recordable event is appended to the
trace, and when the trace has reached maxSteps records the truncated flag
is set and the hook uninstalls itself.  The cap is compared only after
appending. -/
def tracer (bps : List Nat) (maxSteps : Int) (codeLines : List String)
    (st : TracerState) (ev : TraceEvent) : TracerState :=
  if st.active = false then st
  else if isRecorded bps ev = false then st
  else
    let tr := st.trace ++ [recordOf codeLines ev]
    if maxSteps ≤ (tr.length : Int) then TracerState.mk tr true false
    else TracerState.mk tr st.truncated st.active

/-- Run the tracer over the event stream of one traced call, starting from
the empty trace with the hook installed. -/
def runTracer (bps : List Nat) (maxSteps : Int) (codeLines : List String)
    (events : List TraceEvent) : TracerState :=
  events.foldl (tracer bps maxSteps codeLines) (TracerState.mk [] false true)

/-- Number of recordable events in a stream. -/
def countRecorded (bps : List Nat) (events : List TraceEvent) : Nat :=
  (events.filter (isRecorded bps)).length

/-- Abstract behaviour of one debug request after argument validation:
what exec of the submission does, whether the entry point is defined, the
exception the traced call raises if any, and whether the step cap is
reached during the call. -/
structure DebugBehavior where
  execExc : Option PyExc
  funcDefined : Bool
  callExc : Option PyExc
  capReached : Bool

/-- Response classes of the debug endpoint: an error payload carrying the
exception text and the trace collected so far, a 400 for a missing entry
point, or the success payload. -/
inductive DebugResp where
  | errorResp (msg : String)
  | notFoundResp (msg : String)
  | okResp

/-- Result of one debug request: the response, whether the hook was
installed for the traced call, and whether a hook is still installed when
the request finishes. -/
structure DebugOutcome where
  resp : DebugResp
  hookDuringCall : Bool
  hookAfter : Bool

/-- sys.settrace(None): whatever hook was installed, none is now. -/
def settraceNone (_hook : Bool) : Bool := false

/-- The trace-and-execute part of the debug endpoint: exec the submission
(an exception is answered from the except clause, which calls
sys.settrace(None) before returning), answer 400 when the entry point is
missing (the finally clause still calls sys.settrace(None)), otherwise
install the tracer with sys.settrace, call the entry point (the tracer
uninstalls the hook itself when the cap is reached; an exception is
answered from the except clause after sys.settrace(None)), and in all
remaining cases leave through the finally clause, which calls
sys.settrace(None). -/
def debug_solution (funcName : String) (b : DebugBehavior) : DebugOutcome :=
  let hook := false
  match b.execExc with
  | some e =>
    DebugOutcome.mk (.errorResp (e.name ++ ": " ++ e.msg)) hook (settraceNone hook)
  | none =>
    if b.funcDefined = false then
      DebugOutcome.mk
        (.notFoundResp ("Function " ++ funcName ++ " not found in submitted code"))
        hook (settraceNone hook)
    else
      let hook := true
      let hookDuring := hook
      let hook := if b.capReached then settraceNone hook else hook
      match b.callExc with
      | some e =>
        DebugOutcome.mk (.errorResp (e.name ++ ": " ++ e.msg)) hookDuring
          (settraceNone (settraceNone hook))
      | none =>
        DebugOutcome.mk .okResp hookDuring (settraceNone hook)

theorem javaFallback_ne_vList (p : List Char) (l : List PyVal) :
    javaFallback p ≠ PyVal.vList l := by
  unfold javaFallback
  split
  · exact fun h => PyVal.noConfusion h
  · split
    · exact fun h => PyVal.noConfusion h
    · exact fun h => PyVal.noConfusion h

theorem cppFallback_ne_vList (p : List Char) (l : List PyVal) :
    cppFallback p ≠ PyVal.vList l := by
  unfold cppFallback
  split
  · exact fun h => PyVal.noConfusion h
  · split
    · exact fun h => PyVal.noConfusion h
    · exact fun h => PyVal.noConfusion h

theorem classifyJava_ne_vList (p : List Char) (l : List PyVal) :
    classifyJava p ≠ PyVal.vList l := by
  unfold classifyJava
  split
  · cases h : pyFloatValidChars p
    · simpa [h] using javaFallback_ne_vList p l
    · simp [h]
  · cases h : pyIntOfChars p
    · simpa [h] using javaFallback_ne_vList p l
    · simp [h]

theorem classifyCpp_ne_vList (p : List Char) (l : List PyVal) :
    classifyCpp p ≠ PyVal.vList l := by
  unfold classifyCpp
  split
  · cases h : pyFloatValidChars p
    · simpa [h] using cppFallback_ne_vList p l
    · simp [h]
  · cases h : pyIntOfChars p
    · simpa [h] using cppFallback_ne_vList p l
    · simp [h]

theorem parseJavaOutput_ne_vList (out : String) (l : List PyVal) :
    parseJavaOutput out ≠ some (PyVal.vList l) := by
  unfold parseJavaOutput
  cases h : strippedPayload out
  · simp
  · simp [classifyJava_ne_vList]

theorem parseCppOutput_ne_vList (out : String) (l : List PyVal) :
    parseCppOutput out ≠ some (PyVal.vList l) := by
  unfold parseCppOutput
  cases h : strippedPayload out
  · simp
  · simp [classifyCpp_ne_vList]

theorem pyIntOfChars_one : pyIntOfChars ['1'] = some 1 := rfl

theorem pyIntOfChars_zero : pyIntOfChars ['0'] = some 0 := rfl

theorem classifyCpp_ne_vBool (p : List Char) (b : Bool) :
    classifyCpp p ≠ PyVal.vBool b := by
  unfold classifyCpp
  split
  · rename_i hdot
    cases h : pyFloatValidChars p
    · simp only [h]
      unfold cppFallback
      split
      · rename_i h1; subst h1; simp at hdot
      · split
        · rename_i h0; subst h0; simp at hdot
        · exact fun h => PyVal.noConfusion h
    · simp [h]
  · cases h : pyIntOfChars p
    · simp only [h]
      unfold cppFallback
      split
      · rename_i h1; subst h1; rw [pyIntOfChars_one] at h; cases h
      · split
        · rename_i h0; subst h0; rw [pyIntOfChars_zero] at h; cases h
        · exact fun hh => PyVal.noConfusion hh
    · simp [h]

theorem parseCppOutput_ne_vBool (out : String) (b : Bool) :
    parseCppOutput out ≠ some (PyVal.vBool b) := by
  unfold parseCppOutput
  cases h : strippedPayload out
  · simp
  · simp [classifyCpp_ne_vBool]

theorem litBody_escape (cs : List Char) (h : ∀ c ∈ cs, c ≠ '\n' ∧ c ≠ '\r') :
    litBody (escapeChars cs ++ ['"']) = some cs := by
  induction cs with
  | nil => rfl
  | cons c rest ih =>
    have hc := h c (by simp)
    have hrest : ∀ x ∈ rest, x ≠ '\n' ∧ x ≠ '\r' := fun x hx => h x (by simp [hx])
    by_cases h1 : c = '\\'
    · subst h1
      simp [escapeChars, litBody, ih hrest]
    · by_cases h2 : c = '"'
      · subst h2
        simp [escapeChars, litBody, ih hrest]
      · simp only [escapeChars, if_neg h1, if_neg h2]
        rw [litBody.eq_def]
        simp [h1, h2, hc.1, hc.2, ih hrest]

theorem tracer_inactive (bps : List Nat) (maxSteps : Int) (codeLines : List String)
    (events : List TraceEvent) :
    ∀ st : TracerState, st.active = false →
      events.foldl (tracer bps maxSteps codeLines) st = st := by
  induction events with
  | nil => intro st _; rfl
  | cons ev evs ih =>
    intro st h
    have hstep : tracer bps maxSteps codeLines st ev = st := by
      unfold tracer; rw [h]; simp
    rw [List.foldl_cons, hstep]
    exact ih st h

theorem countRecorded_cons_true (bps : List Nat) (ev : TraceEvent)
    (evs : List TraceEvent) (hr : isRecorded bps ev = true) :
    countRecorded bps (ev :: evs) = 1 + countRecorded bps evs := by
  simp [countRecorded, List.filter_cons, hr]
  omega

theorem countRecorded_cons_false (bps : List Nat) (ev : TraceEvent)
    (evs : List TraceEvent) (hr : isRecorded bps ev = false) :
    countRecorded bps (ev :: evs) = countRecorded bps evs := by
  simp [countRecorded, List.filter_cons, hr]

theorem tracer_fold (bps : List Nat) (maxSteps : Int) (codeLines : List String) :
    ∀ (events : List TraceEvent) (st : TracerState),
      st.truncated = false → st.active = true →
      (st.trace.length : Int) < maxSteps →
      ((((events.foldl (tracer bps maxSteps codeLines) st).trace.length : Int) ≤ maxSteps) ∧
       ((events.foldl (tracer bps maxSteps codeLines) st).truncated = true ↔
         maxSteps ≤ (st.trace.length : Int) + (countRecorded bps events : Int)) ∧
       ((events.foldl (tracer bps maxSteps codeLines) st).truncated = true →
         (events.foldl (tracer bps maxSteps codeLines) st).active = false) ∧
       ((events.foldl (tracer bps maxSteps codeLines) st).truncated = false →
         (events.foldl (tracer bps maxSteps codeLines) st).trace.length =
           st.trace.length + countRecorded bps events)) := by
  intro events
  induction events with
  | nil =>
    intro st h1 h2 h3
    refine ⟨le_of_lt h3, ?_, ?_, ?_⟩
    · simp only [List.foldl_nil, countRecorded, List.filter_nil, List.length_nil]
      rw [h1]
      constructor
      · intro hx; cases hx
      · intro hx; omega
    · intro hx
      simp only [List.foldl_nil] at hx
      rw [h1] at hx; cases hx
    · intro _
      simp [countRecorded]
  | cons ev evs ih =>
    intro st h1 h2 h3
    rw [List.foldl_cons]
    cases hr : isRecorded bps ev with
    | false =>
      have hstep : tracer bps maxSteps codeLines st ev = st := by
        unfold tracer; rw [h2, hr]; simp
      rw [hstep, countRecorded_cons_false bps ev evs hr]
      exact ih st h1 h2 h3
    | true =>
      have hlen1 : (st.trace ++ [recordOf codeLines ev]).length = st.trace.length + 1 := by
        simp
      rw [countRecorded_cons_true bps ev evs hr]
      have hcnt : (0 : Int) ≤ (countRecorded bps evs : Int) := Int.ofNat_nonneg _
      by_cases hm : maxSteps ≤ ((st.trace ++ [recordOf codeLines ev]).length : Int)
      · have hm2 : maxSteps ≤ (st.trace.length : Int) + 1 := by
          rw [hlen1] at hm
          push_cast at hm
          omega
        have hstep : tracer bps maxSteps codeLines st ev =
            TracerState.mk (st.trace ++ [recordOf codeLines ev]) true false := by
          unfold tracer; rw [h2, hr]; simp [hm2]
        rw [hstep, tracer_inactive bps maxSteps codeLines evs _ rfl]
        rw [hlen1] at hm
        refine ⟨?_, ⟨fun _ => ?_, fun _ => rfl⟩, fun _ => rfl, fun hx => by cases hx⟩
        · show ((st.trace ++ [recordOf codeLines ev]).length : Int) ≤ maxSteps
          rw [hlen1]
          push_cast at hm ⊢
          omega
        · push_cast at hm ⊢
          omega
      · have hm2 : ¬ (maxSteps ≤ (st.trace.length : Int) + 1) := by
          rw [hlen1] at hm
          push_cast at hm
          omega
        have hstep : tracer bps maxSteps codeLines st ev =
            TracerState.mk (st.trace ++ [recordOf codeLines ev]) st.truncated st.active := by
          unfold tracer; rw [h2, hr]; simp [hm2]
        rw [hstep, h1, h2]
        have hlt : (((TracerState.mk (st.trace ++ [recordOf codeLines ev]) false
            true).trace.length : Int)) < maxSteps := by
          show ((st.trace ++ [recordOf codeLines ev]).length : Int) < maxSteps
          rw [hlen1] at hm ⊢
          push_cast at hm ⊢
          omega
        have hres := ih (TracerState.mk (st.trace ++ [recordOf codeLines ev]) false true)
          rfl rfl hlt
        refine ⟨hres.1, ?_, hres.2.2.1, ?_⟩
        · rw [hres.2.1]
          show maxSteps ≤ ((st.trace ++ [recordOf codeLines ev]).length : Int) +
              (countRecorded bps evs : Int) ↔
            maxSteps ≤ (st.trace.length : Int) + ((1 + countRecorded bps evs : Nat) : Int)
          rw [hlen1]
          push_cast
          constructor
          · intro; omega
          · intro; omega
        · intro hx
          have hy := hres.2.2.2 hx
          show _ = st.trace.length + (1 + countRecorded bps evs)
          rw [hy]
          show (st.trace ++ [recordOf codeLines ev]).length + countRecorded bps evs = _
          rw [hlen1]
          omega

/-- C4: for every call of execute_javascript, execute_java or execute_cpp,
over every behaviour of the environment (write failure, compile failure,
runtime failure, timeout, missing sentinel, success), the temporary working
directory no longer exists when the call returns: the finally clause
removes it on every exit path. -/
theorem c4_tempdir_always_deleted :
    ∀ (envJs : JsEnv) (envJava : CompiledEnv) (envCpp : CompiledEnv),
      (execute_javascript envJs).2.tempDirExists = false ∧
      (execute_java envJava).2.tempDirExists = false ∧
      (execute_cpp envCpp).2.tempDirExists = false :=
  fun _ _ _ => ⟨rfl, rfl, rfl⟩

/-- C7: both marshallers render a boolean argument as the boolean literal
spelling of the target language, never as a bare numeral. -/
theorem c7_bool_literal :
    ∀ b : Bool,
      python_to_java (.vBool b) = (if b then "true" else "false") ∧
      python_to_cpp (.vBool b) = (if b then "true" else "false") ∧
      python_to_java (.vBool b) ≠ "1" ∧ python_to_java (.vBool b) ≠ "0" ∧
      python_to_cpp (.vBool b) ≠ "1" ∧ python_to_cpp (.vBool b) ≠ "0" := by
  intro b
  cases b <;> exact ⟨rfl, rfl, by decide, by decide, by decide, by decide⟩

/-- Witness for C7 at a concrete boolean. -/
theorem c7_witness : python_to_java (.vBool true) ≠ "1" :=
  (c7_bool_literal true).2.2.1

/-- C9: for every debug request behaviour (exec failure, missing entry
point, user-code exception, cap reached, normal completion) no trace hook
remains installed when the request finishes, and whenever the traced call
actually happens the hook was installed for it. -/
theorem c9_hook_uninstalled :
    ∀ (funcName : String) (b : DebugBehavior),
      (debug_solution funcName b).hookAfter = false ∧
      (b.execExc = none → b.funcDefined = true →
        (debug_solution funcName b).hookDuringCall = true) := by
  intro fn b
  cases hE : b.execExc <;> cases hF : b.funcDefined <;> cases hC : b.callExc <;>
    cases hCap : b.capReached <;>
      simp [debug_solution, settraceNone, hE, hF, hC, hCap]

/-- Witness for C9 at a concrete behaviour with a traced call. -/
theorem c9_witness :
    (debug_solution "f" (DebugBehavior.mk none true none false)).hookDuringCall = true :=
  (c9_hook_uninstalled "f" (DebugBehavior.mk none true none false)).2 rfl rfl

/-- C5: in execute_java and execute_cpp, whenever the compile subprocess
finishes within its timeout with a non-zero exit status, the executor
raises the compilation-error RuntimeError and the run subprocess is never
spawned. -/
theorem c5_compile_failure_short_circuits :
    ∀ (envJava envCpp : CompiledEnv) (tj tc : Nat),
      envJava.writeOk = true → envJava.compile.time = some tj → tj ≤ 10 →
      envJava.compile.result.returncode ≠ 0 →
      envCpp.writeOk = true → envCpp.compile.time = some tc → tc ≤ 10 →
      envCpp.compile.result.returncode ≠ 0 →
      ((execute_java envJava).1 =
          .error (.runtimeErr ("Java compilation error: " ++ envJava.compile.result.stderr)) ∧
        (execute_java envJava).2.spawned = [Phase.compilePhase] ∧
        Phase.runPhase ∉ (execute_java envJava).2.spawned ∧
        (execute_cpp envCpp).1 =
          .error (.runtimeErr ("C++ compilation error: " ++ envCpp.compile.result.stderr)) ∧
        (execute_cpp envCpp).2.spawned = [Phase.compilePhase] ∧
        Phase.runPhase ∉ (execute_cpp envCpp).2.spawned) := by
  intro envJava envCpp tj tc hw1 ht1 hle1 hrc1 hw2 ht2 hle2 hrc2
  have hJ : (execute_java envJava).1 =
      .error (.runtimeErr ("Java compilation error: " ++ envJava.compile.result.stderr)) ∧
      (execute_java envJava).2.spawned = [Phase.compilePhase] := by
    unfold execute_java executeJavaBody subprocess_run
    rw [hw1, ht1]
    simp [hle1, hrc1]
  have hC : (execute_cpp envCpp).1 =
      .error (.runtimeErr ("C++ compilation error: " ++ envCpp.compile.result.stderr)) ∧
      (execute_cpp envCpp).2.spawned = [Phase.compilePhase] := by
    unfold execute_cpp executeCppBody subprocess_run
    rw [hw2, ht2]
    simp [hle2, hrc2]
  refine ⟨hJ.1, hJ.2, ?_, hC.1, hC.2, ?_⟩
  · rw [hJ.2]
    intro hmem
    cases hmem with
    | tail _ h => cases h
  · rw [hC.2]
    intro hmem
    cases hmem with
    | tail _ h => cases h

/-- Witness for C5 at concrete environments whose compilers exit with
status two. -/
theorem c5_witness :
    (execute_java (CompiledEnv.mk true (ProcBehavior.mk (some 1) (ProcResult.mk 2 "" "boom"))
        (ProcBehavior.mk (some 1) (ProcResult.mk 0 "" "")))).1 =
      .error (.runtimeErr ("Java compilation error: " ++ "boom")) :=
  (c5_compile_failure_short_circuits
    (CompiledEnv.mk true (ProcBehavior.mk (some 1) (ProcResult.mk 2 "" "boom"))
      (ProcBehavior.mk (some 1) (ProcResult.mk 0 "" "")))
    (CompiledEnv.mk true (ProcBehavior.mk (some 1) (ProcResult.mk 2 "" "bad"))
      (ProcBehavior.mk (some 1) (ProcResult.mk 0 "" "")))
    1 1 rfl rfl (by decide) (by decide) rfl rfl (by decide) (by decide)).1

/-- C3 as amended: the three subprocess executors give back control with a
TimeoutExpired classification whenever their run child needs longer than
the five-second timeout (including never terminating), but execute_python
runs the submission in process with no timeout, so a non-terminating call
keeps it from ever returning. -/
theorem c3_amended :
    (∀ env : JsEnv, env.writeOk = true →
      (∀ t, env.run.time = some t → 5 < t) →
      (execute_javascript env).1 = .error .timeoutExpired) ∧
    (∀ (env : CompiledEnv) (ct : Nat), env.writeOk = true →
      env.compile.time = some ct → ct ≤ 10 → env.compile.result.returncode = 0 →
      (∀ t, env.run.time = some t → 5 < t) →
      (execute_java env).1 = .error .timeoutExpired) ∧
    (∀ (env : CompiledEnv) (ct : Nat), env.writeOk = true →
      env.compile.time = some ct → ct ≤ 10 → env.compile.result.returncode = 0 →
      (∀ t, env.run.time = some t → 5 < t) →
      (execute_cpp env).1 = .error .timeoutExpired) ∧
    (∀ (funcName : String) (b : PyRunBehavior), b.execExc = none →
      b.funcDefined = true → b.callTime = none →
      execute_python funcName b = .hangs) := by
  refine ⟨?_, ?_, ?_, ?_⟩
  · intro env hw hr
    unfold execute_javascript executeJsBody subprocess_run
    rw [hw]
    cases ht : env.run.time with
    | none => simp
    | some t =>
      have h5 : ¬ (t ≤ 5) := by
        have := hr t ht
        omega
      simp [h5]
  · intro env ct hw hct hle hrc hr
    unfold execute_java executeJavaBody subprocess_run
    rw [hw, hct]
    cases ht : env.run.time with
    | none => simp [hle, hrc]
    | some t =>
      have h5 : ¬ (t ≤ 5) := by
        have := hr t ht
        omega
      simp [hle, hrc, h5]
  · intro env ct hw hct hle hrc hr
    unfold execute_cpp executeCppBody subprocess_run
    rw [hw, hct]
    cases ht : env.run.time with
    | none => simp [hle, hrc]
    | some t =>
      have h5 : ¬ (t ≤ 5) := by
        have := hr t ht
        omega
      simp [hle, hrc, h5]
  · intro fn b hE hF hT
    unfold execute_python
    rw [hE, hF, hT]
    rfl

/-- Counterexample to C3 as stated: a Python submission whose call never
returns makes execute_python hang instead of producing a Timeout
classification (there is no timeout mechanism on the in-process path). -/
theorem c3_counterexample :
    execute_python "two_sum"
      (PyRunBehavior.mk none "" "" true none none .vNone "" "") = .hangs := rfl

/-- Witness for C3 as amended: a node child that never terminates yields
TimeoutExpired. -/
theorem c3_witness :
    (execute_javascript (JsEnv.mk true (ProcBehavior.mk none (ProcResult.mk 0 "" "")))).1 =
      .error .timeoutExpired :=
  c3_amended.1 (JsEnv.mk true (ProcBehavior.mk none (ProcResult.mk 0 "" ""))) rfl
    (fun _ h => Option.noConfusion h)

/-- C10 as amended: execute_python returns the three-slot tuple and
converts every failure into (None, stdout so far, formatted error) as long
as the failure lies in the Exception hierarchy and the call terminates;
Exception-level exec failures, a missing entry point, and Exception-level
call failures each produce the documented tuple. -/
theorem c10_amended :
    ∀ (funcName : String) (b : PyRunBehavior),
      (∀ e, b.execExc = some e → e.baseOnly = false) →
      (∀ e, b.callExc = some e → e.baseOnly = false) →
      b.callTime ≠ none →
      ((∃ v out err, execute_python funcName b = .tuple v out err) ∧
       (∀ e, b.execExc = some e →
         execute_python funcName b = .tuple .vNone b.execStdout (e.name ++ ": " ++ e.msg)) ∧
       (b.execExc = none → b.funcDefined = false →
         execute_python funcName b =
           .tuple .vNone b.execStdout ("NameError: Function " ++ funcName ++ " not found")) ∧
       (∀ e, b.execExc = none → b.funcDefined = true → b.callExc = some e →
         execute_python funcName b =
           .tuple .vNone (b.execStdout ++ b.callStdout) (e.name ++ ": " ++ e.msg)) ∧
       (b.execExc = none → b.funcDefined = true → b.callExc = none →
         execute_python funcName b =
           .tuple b.callRet (b.execStdout ++ b.callStdout) (b.execStderr ++ b.callStderr))) := by
  intro fn b hbe hbc hT
  cases hE : b.execExc with
  | some e =>
    have hb := hbe e hE
    have hred : execute_python fn b =
        .tuple .vNone b.execStdout (e.name ++ ": " ++ e.msg) := by
      unfold execute_python
      rw [hE]
      simp [hb]
    refine ⟨⟨_, _, _, hred⟩, ?_, ?_, ?_, ?_⟩
    · intro e2 hE2
      obtain rfl : e = e2 := Option.some.inj hE2
      exact hred
    · intro hnone _
      exact Option.noConfusion hnone
    · intro e2 hnone _ _
      exact Option.noConfusion hnone
    · intro hnone _ _
      exact Option.noConfusion hnone
  | none =>
    cases hT2 : b.callTime with
    | none => exact absurd hT2 hT
    | some t =>
      cases hF : b.funcDefined with
      | false =>
        have hred : execute_python fn b =
            .tuple .vNone b.execStdout ("NameError: Function " ++ fn ++ " not found") := by
          unfold execute_python
          rw [hE, hF]
          rfl
        refine ⟨⟨_, _, _, hred⟩, ?_, fun _ _ => hred, ?_, ?_⟩
        · intro e2 hE2
          exact Option.noConfusion hE2
        · intro e2 _ hF2 _
          exact Bool.noConfusion hF2
        · intro _ hF2 _
          exact Bool.noConfusion hF2
      | true =>
        cases hC : b.callExc with
        | some e =>
          have hb := hbc e hC
          have hred : execute_python fn b =
              .tuple .vNone (b.execStdout ++ b.callStdout) (e.name ++ ": " ++ e.msg) := by
            unfold execute_python
            rw [hE, hF, hT2, hC]
            simp [hb]
          refine ⟨⟨_, _, _, hred⟩, ?_, ?_, ?_, ?_⟩
          · intro e2 hE2
            exact Option.noConfusion hE2
          · intro _ hF2
            exact Bool.noConfusion hF2
          · intro e2 _ _ hC2
            obtain rfl : e = e2 := Option.some.inj hC2
            exact hred
          · intro _ _ hC2
            exact Option.noConfusion hC2
        | none =>
          have hred : execute_python fn b =
              .tuple b.callRet (b.execStdout ++ b.callStdout)
                (b.execStderr ++ b.callStderr) := by
            unfold execute_python
            rw [hE, hF, hT2, hC]
            rfl
          refine ⟨⟨_, _, _, hred⟩, ?_, ?_, ?_, fun _ _ _ => hred⟩
          · intro e2 hE2
            exact Option.noConfusion hE2
          · intro _ hF2
            exact Bool.noConfusion hF2
          · intro e2 _ _ hC2
            exact Option.noConfusion hC2

/-- Counterexample to C10 as stated: a submission raising SystemExit is
not caught by the except-Exception clause, so the exception propagates out
of execute_python instead of being returned as a tuple. -/
theorem c10_counterexample :
    execute_python "two_sum"
      (PyRunBehavior.mk (some (PyExc.mk "SystemExit" "0" true)) "" "" true (some 0)
        none .vNone "" "") = .raises (PyExc.mk "SystemExit" "0" true) := rfl

/-- Witness for C10 as amended: an exec-phase ValueError becomes the
documented tuple. -/
theorem c10_witness :
    execute_python "two_sum"
      (PyRunBehavior.mk (some (PyExc.mk "ValueError" "boom" false)) "out" "" true (some 0)
        none .vNone "" "") =
      .tuple .vNone "out" ("ValueError" ++ ": " ++ "boom") :=
  (c10_amended "two_sum"
    (PyRunBehavior.mk (some (PyExc.mk "ValueError" "boom" false)) "out" "" true (some 0)
      none .vNone "" "")
    (fun e h => by cases h; rfl) (fun e h => by cases h) (by intro h; cases h)).2.1
    (PyExc.mk "ValueError" "boom" false) rfl

/-- C1 as amended: a correct two_sum submission yields the canonical list
value for both test argument pairs on the python path (the value is passed
through in process) and on the javascript path (the harness serializes the
array as JSON and json.loads reconstructs it); the Java and C++ executors,
however, classify sentinel payloads only into numbers, booleans and
strings, so their parsed result is never a list value and the
all-four-languages consistency fails for list-returning problems. -/
theorem c1_amended :
    (two_sum [2, 7, 11, 15] 9 = [0, 1] ∧ two_sum [1, 2, 3] 10 = [-1, -1]) ∧
    (∀ (nums : List Int) (target : Int),
      execute_python "two_sum" (twoSumRunBehavior nums target) =
        .tuple (twoSumVal nums target) "" "") ∧
    (parseJsOutput ("RESULT:" ++ jsonStringify (twoSumVal [2, 7, 11, 15] 9) ++ "\n") =
        some (.vList [.vInt 0, .vInt 1]) ∧
      parseJsOutput ("RESULT:" ++ jsonStringify (twoSumVal [1, 2, 3] 10) ++ "\n") =
        some (.vList [.vInt (-1), .vInt (-1)])) ∧
    (∀ (out : String) (l : List PyVal),
      parseJavaOutput out ≠ some (.vList l) ∧ parseCppOutput out ≠ some (.vList l)) :=
  ⟨⟨rfl, rfl⟩, fun _ _ => rfl, ⟨rfl, rfl⟩,
    fun out l => ⟨parseJavaOutput_ne_vList out l, parseCppOutput_ne_vList out l⟩⟩

/-- Counterexample to C1 as stated: even when a Java or C++ harness prints
the canonical textual form of the index list, the result classifier
returns it as a string, not as the list value, so the parsed result cannot
be identical to the list produced by the python executor. -/
theorem c1_counterexample :
    parseJavaOutput "RESULT:[0, 1]" = some (PyVal.vStr "[0, 1]") ∧
    parseCppOutput "RESULT:[0, 1]" = some (PyVal.vStr "[0, 1]") ∧
    PyVal.vStr "[0, 1]" ≠ PyVal.vList [PyVal.vInt 0, PyVal.vInt 1] :=
  ⟨rfl, rfl, fun h => PyVal.noConfusion h⟩

/-- Witness for C1 as amended, applying the range part at a concrete
output. -/
theorem c1_witness : parseJavaOutput "RESULT:done" ≠ some (PyVal.vList []) :=
  (c1_amended.2.2.2 "RESULT:done" []).1

/-- C6 as amended: for every host string with no raw newline or carriage
return, rendering through python_to_java or python_to_cpp produces a
quoted literal that the target-language string-literal rules interpret
back to exactly the original string (quotes and backslashes round-trip);
a string containing a raw newline renders to an ill-formed literal. -/
theorem c6_amended (s : String) (h : ∀ c ∈ s.data, c ≠ '\n' ∧ c ≠ '\r') :
    interpretStringLit (python_to_java (.vStr s)) = some s ∧
    interpretStringLit (python_to_cpp (.vStr s)) = some s := by
  constructor
  · show (litBody (escapeChars s.data ++ ['"'])).map String.mk = some s
    rw [litBody_escape s.data h]
    rfl
  · show (litBody (escapeChars s.data ++ ['"'])).map String.mk = some s
    rw [litBody_escape s.data h]
    rfl

/-- Counterexample to C6 as stated: a host string containing a raw newline
is rendered with the newline kept verbatim inside the quotes, which is not
a well-formed string literal in either target language, so no
interpretation recovers the original string. -/
theorem c6_counterexample :
    interpretStringLit (python_to_java (.vStr "a\nb")) = none ∧
    interpretStringLit (python_to_cpp (.vStr "a\nb")) = none :=
  ⟨rfl, rfl⟩

/-- Witness for C6 as amended at a string containing an embedded quote and
backslash. -/
theorem c6_witness :
    interpretStringLit (python_to_java (.vStr "a\\b\"c")) = some "a\\b\"c" :=
  (c6_amended "a\\b\"c" (by decide)).1

/-- C8 as amended: for a positive cap, the recorded trace never exceeds
maxSteps records, the truncated flag is set exactly when the number of
recordable events reaches the cap, an untruncated run records every
recordable event, and once truncated the tracer is inert for all further
events; for maxSteps equal to zero the first recordable event is still
recorded, exceeding the cap by one. -/
theorem c8_amended (bps : List Nat) (maxSteps : Int) (codeLines : List String)
    (events : List TraceEvent) (h : 1 ≤ maxSteps) :
    (((runTracer bps maxSteps codeLines events).trace.length : Int) ≤ maxSteps) ∧
    ((runTracer bps maxSteps codeLines events).truncated = true ↔
      maxSteps ≤ (countRecorded bps events : Int)) ∧
    ((runTracer bps maxSteps codeLines events).truncated = false →
      (runTracer bps maxSteps codeLines events).trace.length = countRecorded bps events) ∧
    ((runTracer bps maxSteps codeLines events).truncated = true →
      ∀ more : List TraceEvent,
        more.foldl (tracer bps maxSteps codeLines)
            (runTracer bps maxSteps codeLines events) =
          runTracer bps maxSteps codeLines events) := by
  have h0 : ((([] : List TraceStep).length : Int)) < maxSteps := by
    simp
    omega
  have hres := tracer_fold bps maxSteps codeLines events (TracerState.mk [] false true)
    rfl rfl h0
  refine ⟨hres.1, ?_, ?_, ?_⟩
  · simpa using hres.2.1
  · intro hx
    simpa using hres.2.2.2 hx
  · intro hx more
    exact tracer_inactive bps maxSteps codeLines more _ (hres.2.2.1 hx)

/-- Counterexample to C8 as stated: with maxSteps zero, one recordable
event still produces one record, so the trace exceeds the cap. -/
theorem c8_counterexample :
    (runTracer [] 0 ["x = 1"]
        [TraceEvent.mk "line" "<string>" 1 [] none]).trace.length = 1 ∧
    ¬ (((runTracer [] 0 ["x = 1"]
        [TraceEvent.mk "line" "<string>" 1 [] none]).trace.length : Int) ≤ 0) := by
  refine ⟨rfl, ?_⟩
  decide

/-- Witness for C8 as amended at a concrete positive cap reached by the
event stream. -/
theorem c8_witness :
    (((runTracer [] 2 ["a", "b"]
        [TraceEvent.mk "line" "<string>" 1 [] none,
         TraceEvent.mk "line" "<string>" 2 [] none,
         TraceEvent.mk "line" "<string>" 1 [] none]).trace.length : Int) ≤ 2) :=
  (c8_amended [] 2 ["a", "b"]
    [TraceEvent.mk "line" "<string>" 1 [] none,
     TraceEvent.mk "line" "<string>" 2 [] none,
     TraceEvent.mk "line" "<string>" 1 [] none] (by decide)).1

/-- C2 as amended: the stripped payload of the first sentinel line is
classified by the cascade actually implemented: with a dot and accepted by
float(...) it is a Float; without a dot and accepted by int(...) it is an
Integer; when the numeric conversion raises, Java maps case-insensitive
true and false to booleans and returns anything else as a string verbatim,
while the C++ fallback always returns the string verbatim because its
1-and-0 boolean branch is unreachable (those payloads are already accepted
by int(...)), so the C++ parser never produces a Boolean. -/
theorem c2_amended :
    (∀ (out : String) (p : List Char), strippedPayload out = some p →
      parseJavaOutput out = some (classifyJava p) ∧
      parseCppOutput out = some (classifyCpp p)) ∧
    (∀ p : List Char, p.contains '.' = true → pyFloatValidChars p = true →
      classifyJava p = .vFloat (String.mk p) ∧ classifyCpp p = .vFloat (String.mk p)) ∧
    (∀ (p : List Char) (n : Int), p.contains '.' = false → pyIntOfChars p = some n →
      classifyJava p = .vInt n ∧ classifyCpp p = .vInt n) ∧
    (∀ p : List Char,
      ((p.contains '.' = true ∧ pyFloatValidChars p = false) ∨
        (p.contains '.' = false ∧ pyIntOfChars p = none)) →
      classifyJava p = javaFallback p ∧ classifyCpp p = .vStr (String.mk p)) ∧
    (∀ p : List Char, p.map Char.toLower = "true".data → javaFallback p = .vBool true) ∧
    (∀ p : List Char, p.map Char.toLower = "false".data → javaFallback p = .vBool false) ∧
    (∀ p : List Char, p.map Char.toLower ≠ "true".data → p.map Char.toLower ≠ "false".data →
      javaFallback p = .vStr (String.mk p)) ∧
    (∀ (out : String) (b : Bool), parseCppOutput out ≠ some (.vBool b)) := by
  refine ⟨?_, ?_, ?_, ?_, ?_, ?_, ?_, ?_⟩
  · intro out p h
    unfold parseJavaOutput parseCppOutput
    rw [h]
    exact ⟨rfl, rfl⟩
  · intro p h1 h2
    constructor
    · unfold classifyJava
      rw [h1, h2]
      rfl
    · unfold classifyCpp
      rw [h1, h2]
      rfl
  · intro p n h1 h2
    constructor
    · unfold classifyJava
      rw [h1, h2]
      rfl
    · unfold classifyCpp
      rw [h1, h2]
      rfl
  · intro p hcase
    have h1 : p ≠ "1".data := by
      intro hp
      subst hp
      rcases hcase with ⟨hdot, _⟩ | ⟨_, hint⟩
      · cases hdot
      · rw [pyIntOfChars_one] at hint
        cases hint
    have h0 : p ≠ "0".data := by
      intro hp
      subst hp
      rcases hcase with ⟨hdot, _⟩ | ⟨_, hint⟩
      · cases hdot
      · rw [pyIntOfChars_zero] at hint
        cases hint
    have hcpp : cppFallback p = .vStr (String.mk p) := by
      unfold cppFallback
      rw [if_neg h1, if_neg h0]
    rcases hcase with ⟨hdot, hfl⟩ | ⟨hdot, hint⟩
    · constructor
      · unfold classifyJava
        rw [hdot, hfl]
        rfl
      · unfold classifyCpp
        rw [hdot, hfl]
        exact hcpp
    · constructor
      · unfold classifyJava
        rw [hdot, hint]
        rfl
      · unfold classifyCpp
        rw [hdot, hint]
        exact hcpp
  · intro p hlow
    unfold javaFallback
    rw [if_pos hlow]
  · intro p hlow
    unfold javaFallback
    rw [hlow]
    rfl
  · intro p hT hF
    unfold javaFallback
    rw [if_neg hT, if_neg hF]
  · exact parseCppOutput_ne_vBool

/-- Counterexample to C2 as stated: the C++ payload 1 is classified as the
Integer one, not as a Boolean, because int(...) accepts it before the
boolean fallback is ever consulted. -/
theorem c2_counterexample :
    parseCppOutput "RESULT:1" = some (PyVal.vInt 1) ∧
    PyVal.vInt 1 ≠ PyVal.vBool true ∧ PyVal.vInt 1 ≠ PyVal.vBool false :=
  ⟨rfl, fun h => PyVal.noConfusion h, fun h => PyVal.noConfusion h⟩

/-- Witness for C2 as amended at a concrete integer payload. -/
theorem c2_witness : classifyJava "42".data = PyVal.vInt 42 :=
  (c2_amended.2.2.1 "42".data 42 (by decide) rfl).1
